import Mathlib

namespace WhatsAppMcp

/-- JSON-like values as the Python code manipulates them: object fields form an
association list in insertion order (Python dicts preserve insertion order). -/
inductive Json where
  | null : Json
  | str : String → Json
  | num : Nat → Json
  | obj : List (String × Json) → Json
  | arr : List Json → Json

/-- First-match association-list lookup: the semantics of key access on the
dictionaries built by this code (no duplicate keys arise in practice). -/
def lookupField : List (String × Json) → String → Option Json
  | [], _ => none
  | (k, v) :: rest, key => if k = key then some v else lookupField rest key

/-- Python exceptions distinguished by the code under verification. -/
inductive PyErr where
  | valueError (msg : String)
  | attributeError (ty : String)
  | typeError (msg : String)
  deriving Repr, DecidableEq, BEq

/-- Python str(e): a ValueError prints its message; an AttributeError raised by
calling .get on a non-dict value prints the standard interpreter message. -/
def PyErr.toMessage : PyErr → String
  | .valueError m => m
  | .attributeError ty => "\x27" ++ ty ++ "\x27 object has no attribute \x27get\x27"
  | .typeError m => m

/-- Python type name of a JSON value, used in exception messages. -/
def Json.pyType : Json → String
  | .null => "NoneType"
  | .str _ => "str"
  | .num _ => "int"
  | .obj _ => "dict"
  | .arr _ => "list"

/-- Python truthiness of a JSON-like value. -/
def truthy : Json → Bool
  | .null => false
  | .str s => !(s == "")
  | .num n => !(n == 0)
  | .obj fs => !fs.isEmpty
  | .arr xs => !xs.isEmpty

/-- Python dict.get(key): None when the key is absent; raises AttributeError
when the receiver is not a dict. -/
def pyGet (j : Json) (key : String) : Except PyErr Json :=
  match j with
  | .obj fs => .ok ((lookupField fs key).getD .null)
  | v => .error (.attributeError v.pyType)

/-- Python dict.get(key, default). -/
def pyGetD (j : Json) (key : String) (d : Json) : Except PyErr Json :=
  match j with
  | .obj fs => .ok ((lookupField fs key).getD d)
  | v => .error (.attributeError v.pyType)

/-- validate_phone_number from whatsapp_mcp.utils: rejects the empty string,
strips every non-digit character, rejects inputs that strip to empty. -/
def validate_phone_number (phone_number : String) : Except PyErr String :=
  if phone_number = "" then .error (.valueError "Phone number is required")
  else
    let cleaned := String.mk (phone_number.data.filter Char.isDigit)
    if cleaned = "" then .error (.valueError "Invalid phone number format")
    else .ok cleaned

/-- Outcome of one HTTP exchange as seen by the code: either a response whose
body parsed as JSON (status code, parsed body, raw text), or a raised
exception (transport failure, timeout, or JSON decoding failure), carrying
its str(e) rendering. -/
inductive HttpOutcome where
  | response (status : Nat) (body : Json) (text : String)
  | exc (msg : String)

/-- Outcome of the interaction of get_connection_credentials with the world:
either the required Nango environment variables are missing (it raises before
any request; msg is the joined list of missing names), or the GET request was
issued and either raised (msg is str(e) of the RequestException) or produced
a JSON document. -/
inductive CredStep where
  | envMissing (msg : String)
  | fetchError (msg : String)
  | fetchOk (doc : Json)

/-- The outbound HTTP requests a handler can issue. -/
inductive NetCall where
  | credFetch
  | messagePost (payload : Json)
  | templatesGet
  | templatePost (payload : Json)

/-- The external world a handler invocation runs against: environment-variable
configuration and the outcome of each HTTP endpoint it may contact. -/
structure Env where
  defaultPhoneId : Option String
  defaultBusinessId : Option String
  cred : CredStep
  postOutcome : HttpOutcome
  tmplGetOutcome : HttpOutcome
  tmplPostOutcome : HttpOutcome

/-- get_default_phone_number_id: errors when the variable is unset, empty, or
still the placeholder value. -/
def get_default_phone_number_id (env : Env) : Except PyErr String :=
  match env.defaultPhoneId with
  | none => .error (.valueError "WHATSAPP_PHONE_NUMBER_ID environment variable is not set or still contains placeholder value")
  | some pid =>
    if pid = "" ∨ pid = "your_whatsapp_phone_number_id" then
      .error (.valueError "WHATSAPP_PHONE_NUMBER_ID environment variable is not set or still contains placeholder value")
    else .ok pid

/-- get_default_business_account_id: same pattern as the phone-number ID. -/
def get_default_business_account_id (env : Env) : Except PyErr String :=
  match env.defaultBusinessId with
  | none => .error (.valueError "WHATSAPP_BUSINESS_ACCOUNT_ID environment variable is not set or still contains placeholder value")
  | some b =>
    if b = "" ∨ b = "your_whatsapp_business_account_id" then
      .error (.valueError "WHATSAPP_BUSINESS_ACCOUNT_ID environment variable is not set or still contains placeholder value")
    else .ok b

/-- get_connection_credentials: raises before any request when a Nango
environment variable is missing; otherwise issues the GET and either returns
the JSON document or wraps the transport failure in a ValueError. -/
def get_connection_credentials (cred : CredStep) : Except PyErr Json × List NetCall :=
  match cred with
  | .envMissing m => (.error (.valueError ("Missing required Nango environment variables: " ++ m)), [])
  | .fetchError m => (.error (.valueError ("Failed to get credentials from Nango: " ++ m)), [.credFetch])
  | .fetchOk doc => (.ok doc, [.credFetch])

/-- The lazily evaluated or-chain
credentials.get("apiKey") or credentials.get("credentials", default).get("apiKey")
or credentials.get("credentials", default).get("access_token"),
shared verbatim by get_access_token, WhatsAppClient and WhatsAppTemplateClient.
Returns the chain value (the last operand when every operand is falsy). -/
def tokenChain (credentials : Json) : Except PyErr Json := do
  let t1 ← pyGet credentials "apiKey"
  if truthy t1 then return t1
  else
    let cr ← pyGetD credentials "credentials" (.obj [])
    let t2 ← pyGet cr "apiKey"
    if truthy t2 then return t2
    else
      let cr2 ← pyGetD credentials "credentials" (.obj [])
      pyGet cr2 "access_token"

/-- The token-extraction step of get_access_token in whatsapp_mcp.utils:
the or-chain above followed by the truthiness check that raises ValueError
when no candidate was truthy. -/
def extract_access_token (credentials : Json) : Except PyErr Json := do
  let access_token ← tokenChain credentials
  if truthy access_token then return access_token
  else throw (.valueError "Access token not found in Nango credentials")

/-- get_access_token from whatsapp_mcp.utils: fetch credentials, then extract. -/
def get_access_token (cred : CredStep) : Except PyErr Json × List NetCall :=
  match get_connection_credentials cred with
  | (.error e, calls) => (.error e, calls)
  | (.ok doc, calls) => (extract_access_token doc, calls)

/-- The inlined token extraction in WhatsAppClient.__init__ and
WhatsAppTemplateClient.__init__: same chain, different ValueError message. -/
def clientAccessToken (credentials : Json) : Except PyErr Json := do
  let t ← tokenChain credentials
  if truthy t then return t
  else throw (.valueError "API key is missing from Nango credentials")

/-- State of a constructed WhatsAppClient relevant to behavior. -/
structure WClient where
  access_token : Json
  phone_number_id : String

/-- State of a constructed WhatsAppTemplateClient relevant to behavior. -/
structure WTemplateClient where
  access_token : Json
  business_account_id : String

/-- WhatsAppClient.__init__: fetches credentials and extracts the token,
raising when either step fails. The credential fetch request (when issued)
is recorded in the returned trace. -/
def whatsAppClientInit (cred : CredStep) (phone_number_id : String) :
    Except PyErr WClient × List NetCall :=
  match get_connection_credentials cred with
  | (.error e, calls) => (.error e, calls)
  | (.ok doc, calls) =>
    match clientAccessToken doc with
    | .error e => (.error e, calls)
    | .ok t => (.ok ⟨t, phone_number_id⟩, calls)

/-- WhatsAppTemplateClient.__init__: identical to WhatsAppClient.__init__ up
to the identifier it stores. -/
def templateClientInit (cred : CredStep) (business_account_id : String) :
    Except PyErr WTemplateClient × List NetCall :=
  match get_connection_credentials cred with
  | (.error e, calls) => (.error e, calls)
  | (.ok doc, calls) =>
    match clientAccessToken doc with
    | .error e => (.error e, calls)
    | .ok t => (.ok ⟨t, business_account_id⟩, calls)

/-- The uniform result shape every operation returns. Json.null models
Python None, so a field is "null" exactly when it equals Json.null. -/
structure WResult where
  result : Json
  error : Json

/-- response_data.get("error", default).get("message", response.text):
the error-message extraction performed on every non-200 response. -/
def extractErrorValue (body : Json) (text : String) : Except PyErr Json := do
  let e ← pyGetD body "error" (.obj [])
  pyGetD e "message" (.str text)

/-- The normalization shared verbatim by WhatsAppClient.send_request,
WhatsAppTemplateClient.get_templates and WhatsAppTemplateClient.create_template:
200 yields the body as result; any other status yields the extracted error
message; a raised exception (including one raised by the extraction itself,
caught by the enclosing try) yields str(e). -/
def normalizeResponse (outcome : HttpOutcome) : WResult :=
  match outcome with
  | .exc m => ⟨.null, .str m⟩
  | .response status body text =>
    if status = 200 then ⟨body, .null⟩
    else
      match extractErrorValue body text with
      | .ok m => ⟨.null, m⟩
      | .error e => ⟨.null, .str e.toMessage⟩

/-- WhatsAppClient.send_request: POST the payload to the messages endpoint and
normalize the outcome. -/
def WClient.send_request (_c : WClient) (postOutcome : HttpOutcome) (payload : Json) :
    WResult × List NetCall :=
  (normalizeResponse postOutcome, [.messagePost payload])

/-- WhatsAppTemplateClient.get_templates: GET the templates endpoint and
normalize the outcome. -/
def WTemplateClient.get_templates (_c : WTemplateClient) (tmplGetOutcome : HttpOutcome) :
    WResult × List NetCall :=
  (normalizeResponse tmplGetOutcome, [.templatesGet])

/-- WhatsAppTemplateClient.create_template: POST the payload to the templates
endpoint and normalize the outcome. -/
def WTemplateClient.create_template (_c : WTemplateClient) (tmplPostOutcome : HttpOutcome)
    (payload : Json) : WResult × List NetCall :=
  (normalizeResponse tmplPostOutcome, [.templatePost payload])

/-- The result the catch-all except clause of a handler produces from a raised
exception. -/
def excResult (e : PyErr) : WResult := ⟨.null, .str e.toMessage⟩

/-- Resolution of an optional phone_number_id argument: Python
`if phone_number_id is None: phone_number_id = get_default_phone_number_id()`. -/
def resolvePhoneId (env : Env) (phone_number_id : Option String) : Except PyErr String :=
  match phone_number_id with
  | some pid => .ok pid
  | none => get_default_phone_number_id env

/-- Resolution of an optional business_account_id argument. -/
def resolveBusinessId (env : Env) (business_account_id : Option String) : Except PyErr String :=
  match business_account_id with
  | some b => .ok b
  | none => get_default_business_account_id env

/-- send_text_message: resolves the phone-number ID, constructs the client,
validates the recipient, then sends a text payload when message is truthy,
else a template payload when template_name is truthy, else raises. -/
def send_text_message (env : Env) («to» message template_name language_code : String)
    (phone_number_id : Option String) : WResult × List NetCall :=
  match resolvePhoneId env phone_number_id with
  | .error e => (excResult e, [])
  | .ok pid =>
    match whatsAppClientInit env.cred pid with
    | (.error e, calls) => (excResult e, calls)
    | (.ok client, calls) =>
      match validate_phone_number «to» with
      | .error e => (excResult e, calls)
      | .ok to_clean =>
        if message ≠ "" then
          let payload := Json.obj [("messaging_product", .str "whatsapp"),
            ("to", .str to_clean), ("type", .str "text"),
            ("text", .obj [("body", .str message)])]
          let (r, calls2) := client.send_request env.postOutcome payload
          (r, calls ++ calls2)
        else if template_name ≠ "" then
          let payload := Json.obj [("messaging_product", .str "whatsapp"),
            ("to", .str to_clean), ("type", .str "template"),
            ("template", .obj [("name", .str template_name),
              ("language", .obj [("code", .str language_code)])])]
          let (r, calls2) := client.send_request env.postOutcome payload
          (r, calls ++ calls2)
        else
          (⟨.null, .str "Either \x27message\x27 or \x27template_name\x27 must be provided"⟩, calls)

/-- send_image_message: the caption key is appended to the image object only
when caption is truthy. -/
def send_image_message (env : Env) («to» image_url caption : String)
    (phone_number_id : Option String) : WResult × List NetCall :=
  match resolvePhoneId env phone_number_id with
  | .error e => (excResult e, [])
  | .ok pid =>
    match whatsAppClientInit env.cred pid with
    | (.error e, calls) => (excResult e, calls)
    | (.ok client, calls) =>
      match validate_phone_number «to» with
      | .error e => (excResult e, calls)
      | .ok to_clean =>
        if image_url = "" then (⟨.null, .str "Image URL is required"⟩, calls)
        else
          let payload := Json.obj [("messaging_product", .str "whatsapp"),
            ("to", .str to_clean), ("type", .str "image"),
            ("image", .obj ([("link", .str image_url)] ++
              (if caption ≠ "" then [("caption", Json.str caption)] else [])))]
          let (r, calls2) := client.send_request env.postOutcome payload
          (r, calls ++ calls2)

/-- send_video_message: same shape as send_image_message with the video key. -/
def send_video_message (env : Env) («to» video_url caption : String)
    (phone_number_id : Option String) : WResult × List NetCall :=
  match resolvePhoneId env phone_number_id with
  | .error e => (excResult e, [])
  | .ok pid =>
    match whatsAppClientInit env.cred pid with
    | (.error e, calls) => (excResult e, calls)
    | (.ok client, calls) =>
      match validate_phone_number «to» with
      | .error e => (excResult e, calls)
      | .ok to_clean =>
        if video_url = "" then (⟨.null, .str "Video URL is required"⟩, calls)
        else
          let payload := Json.obj [("messaging_product", .str "whatsapp"),
            ("to", .str to_clean), ("type", .str "video"),
            ("video", .obj ([("link", .str video_url)] ++
              (if caption ≠ "" then [("caption", Json.str caption)] else [])))]
          let (r, calls2) := client.send_request env.postOutcome payload
          (r, calls ++ calls2)

/-- send_document_message: caption then filename are appended to the document
object, each only when truthy. -/
def send_document_message (env : Env) («to» document_url caption filename : String)
    (phone_number_id : Option String) : WResult × List NetCall :=
  match resolvePhoneId env phone_number_id with
  | .error e => (excResult e, [])
  | .ok pid =>
    match whatsAppClientInit env.cred pid with
    | (.error e, calls) => (excResult e, calls)
    | (.ok client, calls) =>
      match validate_phone_number «to» with
      | .error e => (excResult e, calls)
      | .ok to_clean =>
        if document_url = "" then (⟨.null, .str "Document URL is required"⟩, calls)
        else
          let payload := Json.obj [("messaging_product", .str "whatsapp"),
            ("to", .str to_clean), ("type", .str "document"),
            ("document", .obj ([("link", .str document_url)] ++
              (if caption ≠ "" then [("caption", Json.str caption)] else []) ++
              (if filename ≠ "" then [("filename", Json.str filename)] else [])))]
          let (r, calls2) := client.send_request env.postOutcome payload
          (r, calls ++ calls2)

/-- send_audio_message: no optional fields. -/
def send_audio_message (env : Env) («to» audio_url : String)
    (phone_number_id : Option String) : WResult × List NetCall :=
  match resolvePhoneId env phone_number_id with
  | .error e => (excResult e, [])
  | .ok pid =>
    match whatsAppClientInit env.cred pid with
    | (.error e, calls) => (excResult e, calls)
    | (.ok client, calls) =>
      match validate_phone_number «to» with
      | .error e => (excResult e, calls)
      | .ok to_clean =>
        if audio_url = "" then (⟨.null, .str "Audio URL is required"⟩, calls)
        else
          let payload := Json.obj [("messaging_product", .str "whatsapp"),
            ("to", .str to_clean), ("type", .str "audio"),
            ("audio", .obj [("link", .str audio_url)])]
          let (r, calls2) := client.send_request env.postOutcome payload
          (r, calls ++ calls2)

/-- send_list_message: phone_number_id is a required argument here; header,
body, footer and button text are always present in the payload, whatever their
values. -/
def send_list_message (env : Env) (phone_number_id «to» : String) (sections : List Json)
    (header_text body_text footer_text button_text : String) : WResult × List NetCall :=
  match whatsAppClientInit env.cred phone_number_id with
  | (.error e, calls) => (excResult e, calls)
  | (.ok client, calls) =>
    match validate_phone_number «to» with
    | .error e => (excResult e, calls)
    | .ok to_clean =>
      if sections.isEmpty then (⟨.null, .str "Sections are required for list message"⟩, calls)
      else
        let payload := Json.obj [("messaging_product", .str "whatsapp"),
          ("recipient_type", .str "individual"), ("to", .str to_clean),
          ("type", .str "interactive"),
          ("interactive", .obj [("type", .str "list"),
            ("header", .obj [("type", .str "text"), ("text", .str header_text)]),
            ("body", .obj [("text", .str body_text)]),
            ("footer", .obj [("text", .str footer_text)]),
            ("action", .obj [("button", .str button_text),
              ("sections", .arr sections)])])]
        let (r, calls2) := client.send_request env.postOutcome payload
        (r, calls ++ calls2)

/-- send_button_message: the client is constructed (fetching credentials) and
the recipient validated before the button-count check; header and footer are
appended to the interactive object only when truthy. -/
def send_button_message (env : Env) (phone_number_id «to» body_text : String)
    (buttons : List Json) (header_text footer_text : String) : WResult × List NetCall :=
  match whatsAppClientInit env.cred phone_number_id with
  | (.error e, calls) => (excResult e, calls)
  | (.ok client, calls) =>
    match validate_phone_number «to» with
    | .error e => (excResult e, calls)
    | .ok to_clean =>
      if buttons.isEmpty || buttons.length > 3 then
        (⟨.null, .str "Must provide 1-3 buttons for button message"⟩, calls)
      else
        let interactive_data := Json.obj ([("type", Json.str "button"),
          ("body", Json.obj [("text", Json.str body_text)]),
          ("action", Json.obj [("buttons", Json.arr buttons)])] ++
          (if header_text ≠ "" then
            [("header", Json.obj [("type", Json.str "text"), ("text", Json.str header_text)])]
           else []) ++
          (if footer_text ≠ "" then
            [("footer", Json.obj [("text", Json.str footer_text)])]
           else []))
        let payload := Json.obj [("messaging_product", .str "whatsapp"),
          ("recipient_type", .str "individual"), ("to", .str to_clean),
          ("type", .str "interactive"), ("interactive", interactive_data)]
        let (r, calls2) := client.send_request env.postOutcome payload
        (r, calls ++ calls2)

/-- The TemplateLanguage enumeration values, in declaration order. -/
def templateLanguageCodes : List String := ["en", "es", "fr", "de", "it", "pt", "ar", "hi"]

/-- The try TemplateLanguage(language) except ValueError fallback in
send_template_message: an unrecognized code becomes English. -/
def resolveTemplateLanguage (language : String) : String :=
  if templateLanguageCodes.contains language then language else "en"

/-- Python str() of a JSON-like value, used only for the parameter fallback in
send_template_message. The rendering of containers is abbreviated to their type
name: no handler under verification inspects this string. -/
def pyStr : Json → String
  | .str s => s
  | .null => "None"
  | .num n => toString n
  | .obj _ => "dict"
  | .arr _ => "list"

/-- Parameter formatting in send_template_message: a dict containing both a
type and a text key is kept as is; anything else is wrapped as a text
parameter around its str() rendering. -/
def formatParameter (param : Json) : Json :=
  match param with
  | .obj fs =>
    if (lookupField fs "type").isSome && (lookupField fs "text").isSome then .obj fs
    else .obj [("type", .str "text"), ("text", .str (pyStr (.obj fs)))]
  | p => .obj [("type", .str "text"), ("text", .str (pyStr p))]

/-- send_template_message: resolves the language with the English fallback,
formats the parameters, and attaches a body component only when the formatted
parameter list is non-empty. -/
def send_template_message (env : Env) («to» template_name : String)
    (parameters : List Json) (language : String) (phone_number_id : Option String) :
    WResult × List NetCall :=
  match resolvePhoneId env phone_number_id with
  | .error e => (excResult e, [])
  | .ok pid =>
    match whatsAppClientInit env.cred pid with
    | (.error e, calls) => (excResult e, calls)
    | (.ok client, calls) =>
      match validate_phone_number «to» with
      | .error e => (excResult e, calls)
      | .ok to_clean =>
        let code := resolveTemplateLanguage language
        let formatted_parameters := parameters.map formatParameter
        let template_data := Json.obj ([("name", Json.str template_name),
          ("language", Json.obj [("code", Json.str code)])] ++
          (if formatted_parameters.isEmpty then []
           else [("components", Json.arr [Json.obj [("type", Json.str "body"),
             ("parameters", Json.arr formatted_parameters)]])]))
        let payload := Json.obj [("messaging_product", .str "whatsapp"),
          ("to", .str to_clean), ("type", .str "template"),
          ("template", template_data)]
        let (r, calls2) := client.send_request env.postOutcome payload
        (r, calls ++ calls2)

/-- The linear scan in check_template_status: template.get("name") raises on a
non-dict element; the Python == against the name string holds exactly when the
value is that string. -/
def findTemplate (templates : List Json) (template_name : String) :
    Except PyErr (Option Json) :=
  match templates with
  | [] => .ok none
  | t :: rest => do
    let nm ← pyGet t "name"
    match nm with
    | .str s => if s = template_name then return (some t) else findTemplate rest template_name
    | _ => findTemplate rest template_name

/-- Python iteration over the value found at the data key, when that value is
not a list: an empty str or dict iterates zero times, a non-empty one yields
non-dict elements whose .get raises AttributeError, and None or a number is
not iterable at all. Returns the elements when iteration succeeds. -/
def pyIterElems (j : Json) : Except PyErr (List Json) :=
  match j with
  | .arr xs => .ok xs
  | .str s => if s = "" then .ok [] else .error (.attributeError "str")
  | .obj fs => if fs.isEmpty then .ok [] else .error (.attributeError "str")
  | v => .error (.typeError ("\x27" ++ v.pyType ++ "\x27 object is not iterable"))

/-- Python str.upper() for the ASCII strings this code compares:
character-wise uppercasing. -/
def pyUpper (s : String) : String := String.mk (s.data.map Char.toUpper)

/-- The per-element filter predicate in list_templates:
t.get("status", "").upper() == status_filter.upper(); raises when t is not a
dict or its status value has no upper(). -/
def statusMatches (t : Json) (status_filter : String) : Except PyErr Bool := do
  let v ← pyGetD t "status" (.str "")
  match v with
  | .str s => return (pyUpper s == pyUpper status_filter)
  | w => throw (.attributeError w.pyType)

/-- The list comprehension in list_templates, evaluated left to right, raising
at the first ill-typed element. -/
def filterByStatus (ts : List Json) (status_filter : String) :
    Except PyErr (List Json) :=
  match ts with
  | [] => .ok []
  | t :: rest => do
    let b ← statusMatches t status_filter
    let r ← filterByStatus rest status_filter
    return (if b then t :: r else r)

/-- Python len(): defined for str, list and dict, a TypeError otherwise. -/
def pyLen : Json → Except PyErr Nat
  | .str s => .ok s.length
  | .arr xs => .ok xs.length
  | .obj fs => .ok fs.length
  | v => .error (.typeError ("object of type \x27" ++ v.pyType ++ "\x27 has no len()"))

/-- check_template_status: constructs the template client, fetches the
template list, returns the fetch response verbatim when its error is truthy,
otherwise scans response result data for a name match. -/
def check_template_status (env : Env) (template_name : String)
    (business_account_id : Option String) : WResult × List NetCall :=
  match resolveBusinessId env business_account_id with
  | .error e => (excResult e, [])
  | .ok baid =>
    match templateClientInit env.cred baid with
    | (.error e, calls) => (excResult e, calls)
    | (.ok client, calls) =>
      let (response, calls2) := client.get_templates env.tmplGetOutcome
      let calls := calls ++ calls2
      if truthy response.error then (response, calls)
      else
        match pyGetD response.result "data" (.arr []) with
        | .error e => (excResult e, calls)
        | .ok data =>
          match pyIterElems data with
          | .error e => (excResult e, calls)
          | .ok templates =>
            match findTemplate templates template_name with
            | .error e => (excResult e, calls)
            | .ok (some t) => (⟨t, .null⟩, calls)
            | .ok none => (⟨.null, .str "Template not found"⟩, calls)

/-- list_templates: fetches the template list, returns the fetch response
verbatim when its error is truthy, otherwise filters by status when a filter
was given and wraps the list with its length. -/
def list_templates (env : Env) (status_filter : String)
    (business_account_id : Option String) : WResult × List NetCall :=
  match resolveBusinessId env business_account_id with
  | .error e => (excResult e, [])
  | .ok baid =>
    match templateClientInit env.cred baid with
    | (.error e, calls) => (excResult e, calls)
    | (.ok client, calls) =>
      let (response, calls2) := client.get_templates env.tmplGetOutcome
      let calls := calls ++ calls2
      if truthy response.error then (response, calls)
      else
        match pyGetD response.result "data" (.arr []) with
        | .error e => (excResult e, calls)
        | .ok data =>
          let filtered : Except PyErr Json :=
            if status_filter ≠ "" then do
              let elems ← pyIterElems data
              let kept ← filterByStatus elems status_filter
              return .arr kept
            else .ok data
          match filtered with
          | .error e => (excResult e, calls)
          | .ok templates =>
            match pyLen templates with
            | .error e => (excResult e, calls)
            | .ok n =>
              (⟨.obj [("templates", templates), ("count", .num n)], .null⟩, calls)

/-- The category enumeration in create_template. -/
def valid_categories : List String := ["MARKETING", "UTILITY", "AUTHENTICATION"]

/-- create_template: constructs the template client, rejects a category whose
uppercasing is outside the enumeration with a message listing it, otherwise
submits the payload with the uppercased category. -/
def create_template (env : Env) (template_name language category : String)
    (components : List Json) (business_account_id : Option String) :
    WResult × List NetCall :=
  match resolveBusinessId env business_account_id with
  | .error e => (excResult e, [])
  | .ok baid =>
    match templateClientInit env.cred baid with
    | (.error e, calls) => (excResult e, calls)
    | (.ok client, calls) =>
      if !(valid_categories.contains (pyUpper category)) then
        (⟨.null, .str "Invalid category. Must be one of: [\x27MARKETING\x27, \x27UTILITY\x27, \x27AUTHENTICATION\x27]"⟩, calls)
      else
        let payload := Json.obj [("name", .str template_name),
          ("language", .str language),
          ("category", .str (pyUpper category)),
          ("components", .arr components)]
        let (r, calls2) := client.create_template env.tmplPostOutcome payload
        (r, calls ++ calls2)

/-- Spec-level total lookup on a JSON value: the value at the key of an
object, null otherwise. Used only to state the resolution order of the spec. -/
def jLookup (j : Json) (key : String) : Json :=
  match j with
  | .obj fs => (lookupField fs key).getD .null
  | _ => .null

/-- The token-resolution order of the spec, stated in its own words: top-level
apiKey, then nested credentials.apiKey, then nested credentials.access_token;
a candidate counts only when present and truthy. -/
def specTokenCandidates (credentials : Json) : List Json :=
  [jLookup credentials "apiKey",
   jLookup (jLookup credentials "credentials") "apiKey",
   jLookup (jLookup credentials "credentials") "access_token"]

/-- The first present-and-truthy candidate in that order, if any. -/
def specTokenLookup (credentials : Json) : Option Json :=
  (specTokenCandidates credentials).find? truthy

/-- Claim C3: for every phone-number string containing at least one digit,
validate_phone_number returns exactly the digit characters of the input in
their original order; for the empty string and for every string containing no
digit character, it fails with a ValidationError. -/
theorem validate_phone_number_spec (s : String) :
    (s.data.any Char.isDigit = true →
      validate_phone_number s = .ok (String.mk (s.data.filter Char.isDigit))) ∧
    (s.data.any Char.isDigit = false →
      ∃ m, validate_phone_number s = .error (.valueError m)) := by
  constructor
  · intro h
    obtain ⟨c, hc, hdig⟩ := List.any_eq_true.mp h
    have hs : s ≠ "" := by
      intro he
      rw [he] at hc
      exact absurd hc (List.not_mem_nil c)
    have hfil : s.data.filter Char.isDigit ≠ [] := by
      intro he
      have := List.filter_eq_nil_iff.mp he c hc
      simp [hdig] at this
    unfold validate_phone_number
    rw [if_neg hs, if_neg]
    intro he
    apply hfil
    have : (String.mk (s.data.filter Char.isDigit)).data = String.data "" := by rw [he]
    simpa using this
  · intro h
    by_cases hs : s = ""
    · exact ⟨"Phone number is required", by simp [validate_phone_number, hs]⟩
    · refine ⟨"Invalid phone number format", ?_⟩
      have hfil : s.data.filter Char.isDigit = [] := by
        apply List.filter_eq_nil_iff.mpr
        intro a ha
        have h2 := List.any_eq_false.mp h a ha
        simpa using h2
      unfold validate_phone_number
      rw [if_neg hs]
      simp [hfil]

/-- Concrete instance of validate_phone_number_spec: an input mixing digits
and punctuation keeps exactly its digits in order. -/
theorem validate_phone_number_spec_witness :
    validate_phone_number "+1 (555) 010-99" = .ok "155501099" :=
  (validate_phone_number_spec "+1 (555) 010-99").1 (by decide)

/-- Claim C2: for every credential document (a JSON object whose credentials
field, when present, is an object), the resolver tries top-level apiKey, then
credentials.apiKey, then credentials.access_token, returning the first
present-and-truthy one; it raises the credential ValueError when none is; the
two concrete document shapes resolve as the spec states, and the top-level
apiKey wins when both are present. -/
theorem get_access_token_order (fs : List (String × Json))
    (hcr : ∀ j, lookupField fs "credentials" = some j → ∃ gs, j = Json.obj gs) :
    (∀ t, specTokenLookup (.obj fs) = some t → extract_access_token (.obj fs) = .ok t) ∧
    (specTokenLookup (.obj fs) = none →
      extract_access_token (.obj fs) =
        .error (.valueError "Access token not found in Nango credentials")) ∧
    extract_access_token (.obj [("credentials", .obj [("apiKey", .str "X")])]) = .ok (.str "X") ∧
    extract_access_token (.obj [("apiKey", .str "Y")]) = .ok (.str "Y") ∧
    (∀ v, truthy v = true → ∀ gs,
      extract_access_token (.obj [("apiKey", v), ("credentials", .obj gs)]) = .ok v) := by
  have tnull : truthy .null = false := rfl
  have main : extract_access_token (.obj fs) =
      (match specTokenLookup (.obj fs) with
       | some t => .ok t
       | none => .error (.valueError "Access token not found in Nango credentials")) := by
    rcases hl : lookupField fs "credentials" with _ | j
    · cases h1 : truthy ((lookupField fs "apiKey").getD Json.null) <;>
        simp [extract_access_token, tokenChain, pyGet, pyGetD, specTokenLookup,
          specTokenCandidates, jLookup, hl, List.find?, h1, tnull, lookupField,
          bind, Except.bind, pure, Except.pure, throw, throwThe, MonadExceptOf.throw]
    · obtain ⟨gs, rfl⟩ := hcr j hl
      cases h1 : truthy ((lookupField fs "apiKey").getD Json.null) <;>
        cases h2 : truthy ((lookupField gs "apiKey").getD Json.null) <;>
        cases h3 : truthy ((lookupField gs "access_token").getD Json.null) <;>
        simp [extract_access_token, tokenChain, pyGet, pyGetD, specTokenLookup,
          specTokenCandidates, jLookup, hl, List.find?, h1, h2, h3, tnull,
          bind, Except.bind, pure, Except.pure, throw, throwThe, MonadExceptOf.throw]
  refine ⟨?_, ?_, rfl, rfl, ?_⟩
  · intro t ht
    rw [main, ht]
  · intro ht
    rw [main, ht]
  · intro v hv gs
    simp [extract_access_token, tokenChain, pyGet, pyGetD, lookupField, hv,
      bind, Except.bind, pure, Except.pure]

/-- Concrete instance of get_access_token_order: resolution on a document
holding both a top-level apiKey and a nested credentials.apiKey returns the
top-level one. -/
theorem get_access_token_order_witness :
    extract_access_token
      (.obj [("apiKey", .str "Y"), ("credentials", .obj [("apiKey", .str "X")])]) =
      .ok (.str "Y") :=
  (get_access_token_order [("apiKey", .str "Y"), ("credentials", .obj [("apiKey", .str "X")])]
    (fun j hj => ⟨[("apiKey", .str "X")], by
      simp only [lookupField] at hj
      simp at hj
      exact hj.symm⟩)).1 (.str "Y") rfl

/-- Claim C5: on any non-200 response whose body is a JSON object (with an
object error field when one is present), every client operation returns a null
result and the error.message value, or the raw response text when error or
message is absent; the body with error.message "Invalid token" yields exactly
that message for each of the three client operations; a raised exception
yields its str() rendering. -/
theorem send_request_error_normalization :
    (∀ (status : Nat) (bodyFields : List (String × Json)) (text : String),
      status ≠ 200 →
      (∀ e, lookupField bodyFields "error" = some e → ∃ es, e = Json.obj es) →
      normalizeResponse (.response status (.obj bodyFields) text) =
        ⟨.null, (match lookupField bodyFields "error" with
                 | some (Json.obj es) => (lookupField es "message").getD (.str text)
                 | _ => .str text)⟩) ∧
    (∀ m, normalizeResponse (.exc m) = ⟨.null, .str m⟩) ∧
    (∀ (c : WClient) (status : Nat) (text : String) (rest : List (String × Json))
        (payload : Json), status ≠ 200 →
      (c.send_request (.response status
        (.obj (("error", Json.obj [("message", Json.str "Invalid token")]) :: rest)) text)
        payload).1 = ⟨.null, .str "Invalid token"⟩) ∧
    (∀ (c : WTemplateClient) (status : Nat) (text : String) (rest : List (String × Json)),
      status ≠ 200 →
      (c.get_templates (.response status
        (.obj (("error", Json.obj [("message", Json.str "Invalid token")]) :: rest)) text)).1 =
        ⟨.null, .str "Invalid token"⟩) ∧
    (∀ (c : WTemplateClient) (status : Nat) (text : String) (rest : List (String × Json))
        (payload : Json), status ≠ 200 →
      (c.create_template (.response status
        (.obj (("error", Json.obj [("message", Json.str "Invalid token")]) :: rest)) text)
        payload).1 = ⟨.null, .str "Invalid token"⟩) := by
  have base : ∀ (status : Nat) (bodyFields : List (String × Json)) (text : String),
      status ≠ 200 →
      (∀ e, lookupField bodyFields "error" = some e → ∃ es, e = Json.obj es) →
      normalizeResponse (.response status (.obj bodyFields) text) =
        ⟨.null, (match lookupField bodyFields "error" with
                 | some (Json.obj es) => (lookupField es "message").getD (.str text)
                 | _ => .str text)⟩ := by
    intro status bodyFields text hs herr
    rcases hl : lookupField bodyFields "error" with _ | e
    · simp [normalizeResponse, extractErrorValue, pyGetD, hl, hs, lookupField,
        bind, Except.bind, pure, Except.pure]
    · obtain ⟨es, rfl⟩ := herr e hl
      simp [normalizeResponse, extractErrorValue, pyGetD, hl, hs,
        bind, Except.bind, pure, Except.pure]
  refine ⟨base, fun m => rfl, ?_, ?_, ?_⟩
  · intro c status text rest payload hs
    have := base status (("error", Json.obj [("message", Json.str "Invalid token")]) :: rest)
      text hs (by intro e he; simp [lookupField] at he; exact ⟨_, he.symm⟩)
    simpa [WClient.send_request, lookupField] using this
  · intro c status text rest hs
    have := base status (("error", Json.obj [("message", Json.str "Invalid token")]) :: rest)
      text hs (by intro e he; simp [lookupField] at he; exact ⟨_, he.symm⟩)
    simpa [WTemplateClient.get_templates, lookupField] using this
  · intro c status text rest payload hs
    have := base status (("error", Json.obj [("message", Json.str "Invalid token")]) :: rest)
      text hs (by intro e he; simp [lookupField] at he; exact ⟨_, he.symm⟩)
    simpa [WTemplateClient.create_template, lookupField] using this

/-- Concrete instance of send_request_error_normalization: a 401 response
carrying error.message "Invalid token" is normalized to exactly that error. -/
theorem send_request_error_normalization_witness :
    (WClient.send_request ⟨.str "t", "p"⟩
      (.response 401 (.obj [("error", .obj [("message", .str "Invalid token")])]) "raw")
      (.obj [])).1 = ⟨.null, .str "Invalid token"⟩ :=
  send_request_error_normalization.2.2.1 ⟨.str "t", "p"⟩ 401 "raw" [] (.obj [])
    (by decide)

/-- Claim C8: with a constructible client, create_template rejects any
category whose uppercasing is outside the enumeration, with a message listing
the three valid categories and no template-creation POST issued; a category
whose uppercasing is in the enumeration is uppercased in the submitted
payload. -/
theorem create_template_category_validation (env : Env)
    (template_name language category : String) (components : List Json)
    (baid : String) (doc tok : Json)
    (hc : env.cred = .fetchOk doc) (ht : clientAccessToken doc = .ok tok) :
    (valid_categories.contains (pyUpper category) = false →
      create_template env template_name language category components (some baid) =
        (⟨.null, .str "Invalid category. Must be one of: [\x27MARKETING\x27, \x27UTILITY\x27, \x27AUTHENTICATION\x27]"⟩,
         [.credFetch])) ∧
    (valid_categories.contains (pyUpper category) = true →
      create_template env template_name language category components (some baid) =
        (normalizeResponse env.tmplPostOutcome,
         [.credFetch, .templatePost (Json.obj [("name", .str template_name),
           ("language", .str language), ("category", .str (pyUpper category)),
           ("components", .arr components)])])) := by
  constructor <;> intro hcat <;>
    simp [create_template, resolveBusinessId, templateClientInit,
      get_connection_credentials, hc, ht, hcat, WTemplateClient.create_template] <;>
    simpa using hcat

/-- Concrete instance of create_template_category_validation: category
"social" is rejected with the message listing the three valid categories,
before any template POST. -/
theorem create_template_category_validation_witness :
    create_template
      ⟨none, none, .fetchOk (.obj [("apiKey", .str "tok")]), .exc "e", .exc "e", .exc "e"⟩
      "t" "en" "social" [] (some "b") =
      (⟨.null, .str "Invalid category. Must be one of: [\x27MARKETING\x27, \x27UTILITY\x27, \x27AUTHENTICATION\x27]"⟩,
       [.credFetch]) :=
  (create_template_category_validation
    ⟨none, none, .fetchOk (.obj [("apiKey", .str "tok")]), .exc "e", .exc "e", .exc "e"⟩
    "t" "en" "social" [] "b" (.obj [("apiKey", .str "tok")]) (.str "tok")
    rfl rfl).1 (by decide)

/-- Claim C9: with a constructible client and a valid recipient, a non-empty
message makes send_text_message post exactly the text payload built from
message, whatever template_name holds; with both message and template_name
empty it posts nothing and returns the either-or error message. -/
theorem send_text_message_precedence (env : Env)
    («to» message template_name language_code pid : String) (doc tok : Json) (p : String)
    (hc : env.cred = .fetchOk doc) (ht : clientAccessToken doc = .ok tok)
    (hv : validate_phone_number «to» = .ok p) :
    (message ≠ "" →
      send_text_message env «to» message template_name language_code (some pid) =
        (normalizeResponse env.postOutcome,
         [.credFetch, .messagePost (Json.obj [("messaging_product", .str "whatsapp"),
           ("to", .str p), ("type", .str "text"),
           ("text", .obj [("body", .str message)])])])) ∧
    (message = "" → template_name = "" →
      send_text_message env «to» message template_name language_code (some pid) =
        (⟨.null, .str "Either \x27message\x27 or \x27template_name\x27 must be provided"⟩,
         [.credFetch])) := by
  constructor
  · intro hm
    simp [send_text_message, resolvePhoneId, whatsAppClientInit,
      get_connection_credentials, hc, ht, hv, hm, WClient.send_request]
  · intro hm htn
    subst hm
    subst htn
    simp [send_text_message, resolvePhoneId, whatsAppClientInit,
      get_connection_credentials, hc, ht, hv]

/-- Concrete instance of send_text_message_precedence: a non-empty message and
a non-empty template_name together send the text payload. -/
theorem send_text_message_precedence_witness :
    send_text_message
      ⟨none, none, .fetchOk (.obj [("apiKey", .str "tok")]), .exc "boom", .exc "e", .exc "e"⟩
      "+1 555" "hello" "tpl" "en_US" (some "pid") =
      (⟨.null, .str "boom"⟩,
       [.credFetch, .messagePost (Json.obj [("messaging_product", .str "whatsapp"),
         ("to", .str "1555"), ("type", .str "text"),
         ("text", .obj [("body", .str "hello")])])]) :=
  (send_text_message_precedence
    ⟨none, none, .fetchOk (.obj [("apiKey", .str "tok")]), .exc "boom", .exc "e", .exc "e"⟩
    "+1 555" "hello" "tpl" "en_US" "pid" (.obj [("apiKey", .str "tok")]) (.str "tok")
    "1555" rfl rfl rfl).1 (by decide)

/-- The pure filter predicate that list_templates implements on well-shaped
template objects: the status value (empty string when the key is absent)
uppercased equals the uppercased filter. -/
def matchesByStatus (t : Json) (status_filter : String) : Bool :=
  match t with
  | .obj fs =>
    match (lookupField fs "status").getD (.str "") with
    | .str s => pyUpper s == pyUpper status_filter
    | _ => false
  | _ => false

/-- A template element as the upstream API returns it: an object whose status
field, when present, is a string. -/
def templateShaped (t : Json) : Prop :=
  ∃ fs, t = Json.obj fs ∧
    (lookupField fs "status" = none ∨ ∃ s, lookupField fs "status" = some (.str s))

/-- On a list of well-shaped template objects the comprehension in
list_templates succeeds and computes the pure filter. -/
theorem filterByStatus_shaped (status_filter : String) :
    ∀ ts : List Json, (∀ t ∈ ts, templateShaped t) →
      filterByStatus ts status_filter = .ok (ts.filter (matchesByStatus · status_filter)) := by
  intro ts
  induction ts with
  | nil => intro _; rfl
  | cons t rest ih =>
    intro h
    have hrest := ih (fun u hu => h u (List.mem_cons_of_mem t hu))
    obtain ⟨fs, rfl, hst⟩ := h t (List.mem_cons_self t rest)
    have hsm : statusMatches (Json.obj fs) status_filter =
        .ok (matchesByStatus (Json.obj fs) status_filter) := by
      rcases hst with hn | ⟨s, hs⟩
      · simp [statusMatches, matchesByStatus, pyGetD, hn,
          bind, Except.bind, pure, Except.pure]
      · simp [statusMatches, matchesByStatus, pyGetD, hs,
          bind, Except.bind, pure, Except.pure]
    simp [filterByStatus, hsm, hrest, List.filter_cons,
      bind, Except.bind, pure, Except.pure]

/-- Claim C10: a successful list_templates call returns the fetched data list
with its length as count, unfiltered when status_filter is empty, otherwise
filtered by case-insensitive status match; and a template without a status
field is excluded by every non-empty filter. -/
theorem list_templates_spec (env : Env) (status_filter baid text : String)
    (doc tok : Json) (bfs : List (String × Json)) (ts : List Json)
    (hc : env.cred = .fetchOk doc) (ht : clientAccessToken doc = .ok tok)
    (hresp : env.tmplGetOutcome = .response 200 (.obj bfs) text)
    (hdata : lookupField bfs "data" = some (.arr ts))
    (hshape : ∀ t ∈ ts, templateShaped t) :
    list_templates env status_filter (some baid) =
      (⟨.obj [("templates", .arr (if status_filter = "" then ts
           else ts.filter (matchesByStatus · status_filter))),
         ("count", .num (if status_filter = "" then ts
           else ts.filter (matchesByStatus · status_filter)).length)], .null⟩,
       [.credFetch, .templatesGet]) ∧
    (status_filter ≠ "" → ∀ fs, lookupField fs "status" = none →
      matchesByStatus (Json.obj fs) status_filter = false) := by
  constructor
  · have hfil := filterByStatus_shaped status_filter ts hshape
    by_cases hf : status_filter = ""
    · subst hf
      simp [list_templates, resolveBusinessId, templateClientInit,
        get_connection_credentials, hc, ht, WTemplateClient.get_templates,
        hresp, normalizeResponse, truthy, pyGetD, hdata, pyLen]
    · simp [list_templates, resolveBusinessId, templateClientInit,
        get_connection_credentials, hc, ht, WTemplateClient.get_templates,
        hresp, normalizeResponse, truthy, pyGetD, hdata, pyIterElems, hfil, hf,
        pyLen, bind, Except.bind, pure, Except.pure]
  · intro hf fs hn
    have hup : pyUpper status_filter ≠ "" := by
      intro h
      apply hf
      have hdat : (pyUpper status_filter).data = String.data "" := by rw [h]
      simp [pyUpper] at hdat
      cases hs : status_filter.data with
      | nil =>
        cases status_filter with
        | mk l => simp at hs; simp [hs]
      | cons c cs => rw [hs] at hdat; simp at hdat
    simp [matchesByStatus, hn, pyUpper]
    intro h
    exact absurd h.symm (by simpa [pyUpper] using hup)

/-- Concrete instance of list_templates_spec: a fetched list of two templates
filtered with "approved" keeps exactly the APPROVED one and counts it. -/
theorem list_templates_spec_witness :
    list_templates
      ⟨none, none, .fetchOk (.obj [("apiKey", .str "tok")]), .exc "e",
        .response 200 (.obj [("data", .arr [.obj [("name", .str "a")],
          .obj [("name", .str "b"), ("status", .str "APPROVED")]])]) "raw", .exc "e"⟩
      "approved" (some "b") =
      (⟨.obj [("templates", .arr [.obj [("name", .str "b"), ("status", .str "APPROVED")]]),
         ("count", .num 1)], .null⟩,
       [.credFetch, .templatesGet]) :=
  (list_templates_spec
    ⟨none, none, .fetchOk (.obj [("apiKey", .str "tok")]), .exc "e",
      .response 200 (.obj [("data", .arr [.obj [("name", .str "a")],
        .obj [("name", .str "b"), ("status", .str "APPROVED")]])]) "raw", .exc "e"⟩
    "approved" "b" "raw" (.obj [("apiKey", .str "tok")]) (.str "tok")
    [("data", .arr [.obj [("name", .str "a")],
      .obj [("name", .str "b"), ("status", .str "APPROVED")]])]
    [.obj [("name", .str "a")], .obj [("name", .str "b"), ("status", .str "APPROVED")]]
    rfl rfl rfl rfl
    (by
      intro t htmem
      rcases List.mem_cons.mp htmem with rfl | ht2
      · exact ⟨_, rfl, .inl rfl⟩
      · rcases List.mem_cons.mp ht2 with rfl | ht3
        · exact ⟨_, rfl, .inr ⟨"APPROVED", rfl⟩⟩
        · exact absurd ht3 (List.not_mem_nil t))).1

/-- Claim C4 counterexample: calling send_button_message with four buttons
does return the button validation error, but an HTTP request has already been
issued — client construction performs the credential fetch before the button
check, so the trace is not empty. -/
theorem send_button_no_network_counterexample :
    send_button_message
      ⟨none, none, .fetchOk (.obj [("apiKey", .str "tok")]), .exc "e", .exc "e", .exc "e"⟩
      "pid" "1555" "body" [.obj [], .obj [], .obj [], .obj []] "" "" =
      (⟨.null, .str "Must provide 1-3 buttons for button message"⟩, [.credFetch]) ∧
    [NetCall.credFetch] ≠ ([] : List NetCall) := ⟨rfl, by simp⟩

/-- Claim C4 amended: with a successful credential fetch and a valid
recipient, an empty or more-than-three-element button list makes
send_button_message return the button validation error without issuing the
message POST; the credential fetch, however, has already been issued during
client construction. -/
theorem send_button_validation_amended (env : Env)
    (pid «to» body_text : String) (buttons : List Json)
    (header_text footer_text : String) (doc tok : Json) (p : String)
    (hc : env.cred = .fetchOk doc) (ht : clientAccessToken doc = .ok tok)
    (hv : validate_phone_number «to» = .ok p)
    (hb : buttons = [] ∨ buttons.length > 3) :
    send_button_message env pid «to» body_text buttons header_text footer_text =
      (⟨.null, .str "Must provide 1-3 buttons for button message"⟩, [.credFetch]) := by
  have hbb : (buttons.isEmpty || decide (buttons.length > 3)) = true := by
    rcases hb with rfl | hlen
    · simp
    · simp [hlen]
  simp [send_button_message, whatsAppClientInit, get_connection_credentials,
    hc, ht, hv, hbb]

/-- Concrete instance of send_button_validation_amended: four buttons yield
the validation error with only the credential fetch in the trace. -/
theorem send_button_validation_amended_witness :
    send_button_message
      ⟨none, none, .fetchOk (.obj [("apiKey", .str "tok")]), .exc "e", .exc "e", .exc "e"⟩
      "pid" "+1555" "body" [.obj [], .obj [], .obj [], .obj []] "h" "f" =
      (⟨.null, .str "Must provide 1-3 buttons for button message"⟩, [.credFetch]) :=
  send_button_validation_amended
    ⟨none, none, .fetchOk (.obj [("apiKey", .str "tok")]), .exc "e", .exc "e", .exc "e"⟩
    "pid" "+1555" "body" [.obj [], .obj [], .obj [], .obj []] "h" "f"
    (.obj [("apiKey", .str "tok")]) (.str "tok") "1555" rfl rfl rfl
    (.inr (by decide))

/-- Claim C6 counterexample: send_text_message accepts a template language
code, yet with the unrecognized code "xx" it posts a payload whose language
code is still "xx", not "en" — the fallback is not applied by every operation
that accepts a language code. -/
theorem language_passthrough_counterexample :
    send_text_message
      ⟨none, none, .fetchOk (.obj [("apiKey", .str "tok")]), .exc "e", .exc "e", .exc "e"⟩
      "1555" "" "welcome" "xx" (some "pid") =
      (⟨.null, .str "e"⟩,
       [.credFetch, .messagePost (Json.obj [("messaging_product", .str "whatsapp"),
         ("to", .str "1555"), ("type", .str "template"),
         ("template", .obj [("name", .str "welcome"),
           ("language", .obj [("code", .str "xx")])])])]) := rfl

/-- Claim C6 amended: only send_template_message checks the language against
the fixed enumeration, passing members through and silently substituting "en"
otherwise; send_text_message and create_template forward the supplied language
code into the outgoing payload unchanged. -/
theorem template_language_fallback (env : Env)
    («to» template_name language language_code pid category baid : String)
    (components : List Json) (doc tok : Json) (p : String)
    (hc : env.cred = .fetchOk doc) (ht : clientAccessToken doc = .ok tok)
    (hv : validate_phone_number «to» = .ok p) :
    (templateLanguageCodes.contains language = true →
      resolveTemplateLanguage language = language) ∧
    (templateLanguageCodes.contains language = false →
      resolveTemplateLanguage language = "en") ∧
    (send_template_message env «to» template_name [] language (some pid) =
      (normalizeResponse env.postOutcome,
       [.credFetch, .messagePost (Json.obj [("messaging_product", .str "whatsapp"),
         ("to", .str p), ("type", .str "template"),
         ("template", .obj [("name", .str template_name),
           ("language", .obj [("code", .str (resolveTemplateLanguage language))])])])])) ∧
    (template_name ≠ "" →
      send_text_message env «to» "" template_name language_code (some pid) =
        (normalizeResponse env.postOutcome,
         [.credFetch, .messagePost (Json.obj [("messaging_product", .str "whatsapp"),
           ("to", .str p), ("type", .str "template"),
           ("template", .obj [("name", .str template_name),
             ("language", .obj [("code", .str language_code)])])])])) ∧
    (valid_categories.contains (pyUpper category) = true →
      create_template env template_name language category components (some baid) =
        (normalizeResponse env.tmplPostOutcome,
         [.credFetch, .templatePost (Json.obj [("name", .str template_name),
           ("language", .str language), ("category", .str (pyUpper category)),
           ("components", .arr components)])])) := by
  refine ⟨?_, ?_, ?_, ?_, ?_⟩
  · intro h
    simp [resolveTemplateLanguage, h]
    intro hmem
    exact absurd (by simpa using h) hmem
  · intro h
    simp [resolveTemplateLanguage, h]
    intro hmem
    exact absurd hmem (by simpa using h)
  · simp [send_template_message, resolvePhoneId, whatsAppClientInit,
      get_connection_credentials, hc, ht, hv, WClient.send_request]
  · intro hn
    simp [send_text_message, resolvePhoneId, whatsAppClientInit,
      get_connection_credentials, hc, ht, hv, hn, WClient.send_request]
  · intro hcat
    simp [create_template, resolveBusinessId, templateClientInit,
      get_connection_credentials, hc, ht, hcat, WTemplateClient.create_template]
    simpa using hcat

/-- Concrete instance of template_language_fallback: send_template_message
with the unrecognized code "xx" posts a payload whose language code is "en". -/
theorem template_language_fallback_witness :
    send_template_message
      ⟨none, none, .fetchOk (.obj [("apiKey", .str "tok")]), .exc "e", .exc "e", .exc "e"⟩
      "1555" "welcome" [] "xx" (some "pid") =
      (⟨.null, .str "e"⟩,
       [.credFetch, .messagePost (Json.obj [("messaging_product", .str "whatsapp"),
         ("to", .str "1555"), ("type", .str "template"),
         ("template", .obj [("name", .str "welcome"),
           ("language", .obj [("code", .str "en")])])])]) :=
  (template_language_fallback
    ⟨none, none, .fetchOk (.obj [("apiKey", .str "tok")]), .exc "e", .exc "e", .exc "e"⟩
    "1555" "welcome" "xx" "en_US" "pid" "utility" "b" []
    (.obj [("apiKey", .str "tok")]) (.str "tok") "1555" rfl rfl rfl).2.2.1

/-- Key presence on a JSON object, for stating which keys a payload carries. -/
def hasKey (j : Json) (key : String) : Bool :=
  match j with
  | .obj fs => (lookupField fs key).isSome
  | _ => false

/-- Claim C7 counterexample: send_list_message is an interactive-message
handler with optional header_text and footer_text, yet with both supplied
empty the posted payload still contains the header and footer keys, each
holding an empty text — contradicting presence-iff-non-empty. -/
theorem optional_fields_counterexample :
    send_list_message
      ⟨none, none, .fetchOk (.obj [("apiKey", .str "tok")]), .exc "e", .exc "e", .exc "e"⟩
      "pid" "1555" [.obj [("title", .str "s")]] "" "b" "" "btn" =
      (⟨.null, .str "e"⟩,
       [.credFetch, .messagePost (Json.obj [("messaging_product", .str "whatsapp"),
         ("recipient_type", .str "individual"), ("to", .str "1555"),
         ("type", .str "interactive"),
         ("interactive", .obj [("type", .str "list"),
           ("header", .obj [("type", .str "text"), ("text", .str "")]),
           ("body", .obj [("text", .str "b")]),
           ("footer", .obj [("text", .str "")]),
           ("action", .obj [("button", .str "btn"),
             ("sections", .arr [.obj [("title", .str "s")]])])])])]) ∧
    hasKey (.obj [("type", .str "list"),
      ("header", .obj [("type", .str "text"), ("text", .str "")]),
      ("body", .obj [("text", .str "b")]),
      ("footer", .obj [("text", .str "")]),
      ("action", .obj [("button", .str "btn"),
        ("sections", .arr [.obj [("title", .str "s")]])])]) "header" = true :=
  ⟨rfl, rfl⟩

/-- Claim C7 amended: on the media handlers (caption, filename) and on
send_button_message (header, footer) the key of an optional field is present in
the outgoing payload exactly when its value is non-empty, and then holds that
value; send_list_message instead always includes header and footer, whatever
text was supplied. -/
theorem optional_fields_amended (env : Env) («to» pid : String)
    (doc tok : Json) (p : String)
    (hc : env.cred = .fetchOk doc) (ht : clientAccessToken doc = .ok tok)
    (hv : validate_phone_number «to» = .ok p) :
    (∀ image_url caption, image_url ≠ "" → ∃ imageObj,
      (send_image_message env «to» image_url caption (some pid)).2 =
        [.credFetch, .messagePost (Json.obj [("messaging_product", .str "whatsapp"),
          ("to", .str p), ("type", .str "image"), ("image", imageObj)])] ∧
      (hasKey imageObj "caption" = true ↔ caption ≠ "") ∧
      (caption ≠ "" → jLookup imageObj "caption" = .str caption)) ∧
    (∀ video_url caption, video_url ≠ "" → ∃ videoObj,
      (send_video_message env «to» video_url caption (some pid)).2 =
        [.credFetch, .messagePost (Json.obj [("messaging_product", .str "whatsapp"),
          ("to", .str p), ("type", .str "video"), ("video", videoObj)])] ∧
      (hasKey videoObj "caption" = true ↔ caption ≠ "") ∧
      (caption ≠ "" → jLookup videoObj "caption" = .str caption)) ∧
    (∀ document_url caption filename, document_url ≠ "" → ∃ docObj,
      (send_document_message env «to» document_url caption filename (some pid)).2 =
        [.credFetch, .messagePost (Json.obj [("messaging_product", .str "whatsapp"),
          ("to", .str p), ("type", .str "document"), ("document", docObj)])] ∧
      (hasKey docObj "caption" = true ↔ caption ≠ "") ∧
      (caption ≠ "" → jLookup docObj "caption" = .str caption) ∧
      (hasKey docObj "filename" = true ↔ filename ≠ "") ∧
      (filename ≠ "" → jLookup docObj "filename" = .str filename)) ∧
    (∀ body_text buttons header_text footer_text,
      (buttons.isEmpty || decide (buttons.length > 3)) = false → ∃ interactiveObj,
      (send_button_message env pid «to» body_text buttons header_text footer_text).2 =
        [.credFetch, .messagePost (Json.obj [("messaging_product", .str "whatsapp"),
          ("recipient_type", .str "individual"), ("to", .str p),
          ("type", .str "interactive"), ("interactive", interactiveObj)])] ∧
      (hasKey interactiveObj "header" = true ↔ header_text ≠ "") ∧
      (header_text ≠ "" → jLookup interactiveObj "header" =
        .obj [("type", .str "text"), ("text", .str header_text)]) ∧
      (hasKey interactiveObj "footer" = true ↔ footer_text ≠ "") ∧
      (footer_text ≠ "" → jLookup interactiveObj "footer" =
        .obj [("text", .str footer_text)])) ∧
    (∀ sections header_text body_text footer_text button_text,
      (sections : List Json).isEmpty = false →
      (send_list_message env pid «to» sections header_text body_text footer_text
        button_text).2 =
        [.credFetch, .messagePost (Json.obj [("messaging_product", .str "whatsapp"),
          ("recipient_type", .str "individual"), ("to", .str p),
          ("type", .str "interactive"),
          ("interactive", .obj [("type", .str "list"),
            ("header", .obj [("type", .str "text"), ("text", .str header_text)]),
            ("body", .obj [("text", .str body_text)]),
            ("footer", .obj [("text", .str footer_text)]),
            ("action", .obj [("button", .str button_text),
              ("sections", .arr sections)])])])] ∧
      hasKey (Json.obj [("type", Json.str "list"),
        ("header", Json.obj [("type", Json.str "text"), ("text", Json.str header_text)]),
        ("body", Json.obj [("text", Json.str body_text)]),
        ("footer", Json.obj [("text", Json.str footer_text)]),
        ("action", Json.obj [("button", Json.str button_text),
          ("sections", Json.arr sections)])]) "header" = true) := by
  refine ⟨?_, ?_, ?_, ?_, ?_⟩
  · intro image_url caption hu
    refine ⟨.obj ([("link", .str image_url)] ++
      (if caption ≠ "" then [("caption", Json.str caption)] else [])), ?_, ?_, ?_⟩
    · simp [send_image_message, resolvePhoneId, whatsAppClientInit,
        get_connection_credentials, hc, ht, hv, hu, WClient.send_request]
    · by_cases hcap : caption = "" <;> simp [hasKey, lookupField, hcap]
    · intro hcap
      simp [jLookup, lookupField, hcap]
  · intro video_url caption hu
    refine ⟨.obj ([("link", .str video_url)] ++
      (if caption ≠ "" then [("caption", Json.str caption)] else [])), ?_, ?_, ?_⟩
    · simp [send_video_message, resolvePhoneId, whatsAppClientInit,
        get_connection_credentials, hc, ht, hv, hu, WClient.send_request]
    · by_cases hcap : caption = "" <;> simp [hasKey, lookupField, hcap]
    · intro hcap
      simp [jLookup, lookupField, hcap]
  · intro document_url caption filename hu
    refine ⟨.obj ([("link", .str document_url)] ++
      (if caption ≠ "" then [("caption", Json.str caption)] else []) ++
      (if filename ≠ "" then [("filename", Json.str filename)] else [])),
      ?_, ?_, ?_, ?_, ?_⟩
    · simp [send_document_message, resolvePhoneId, whatsAppClientInit,
        get_connection_credentials, hc, ht, hv, hu, WClient.send_request]
    · by_cases hcap : caption = "" <;> by_cases hfn : filename = "" <;>
        simp [hasKey, lookupField, hcap, hfn]
    · intro hcap
      by_cases hfn : filename = "" <;> simp [jLookup, lookupField, hcap, hfn]
    · by_cases hcap : caption = "" <;> by_cases hfn : filename = "" <;>
        simp [hasKey, lookupField, hcap, hfn]
    · intro hfn
      by_cases hcap : caption = "" <;> simp [jLookup, lookupField, hcap, hfn]
  · intro body_text buttons header_text footer_text hbok
    refine ⟨.obj ([("type", Json.str "button"),
      ("body", Json.obj [("text", Json.str body_text)]),
      ("action", Json.obj [("buttons", Json.arr buttons)])] ++
      (if header_text ≠ "" then
        [("header", Json.obj [("type", Json.str "text"), ("text", Json.str header_text)])]
       else []) ++
      (if footer_text ≠ "" then
        [("footer", Json.obj [("text", Json.str footer_text)])]
       else [])), ?_, ?_, ?_, ?_, ?_⟩
    · simp [send_button_message, whatsAppClientInit,
        get_connection_credentials, hc, ht, hv, hbok, WClient.send_request]
    · by_cases hh : header_text = "" <;> by_cases hf : footer_text = "" <;>
        simp [hasKey, lookupField, hh, hf]
    · intro hh
      by_cases hf : footer_text = "" <;> simp [jLookup, lookupField, hh, hf]
    · by_cases hh : header_text = "" <;> by_cases hf : footer_text = "" <;>
        simp [hasKey, lookupField, hh, hf]
    · intro hf
      by_cases hh : header_text = "" <;> simp [jLookup, lookupField, hh, hf]
  · intro sections header_text body_text footer_text button_text hs
    constructor
    · simp [send_list_message, whatsAppClientInit,
        get_connection_credentials, hc, ht, hv, hs, WClient.send_request]
    · rfl

/-- Concrete instance of optional_fields_amended: an image message with an
empty caption posts an image object without the caption key. -/
theorem optional_fields_amended_witness :
    ∃ imageObj,
      (send_image_message
        ⟨none, none, .fetchOk (.obj [("apiKey", .str "tok")]), .exc "e", .exc "e", .exc "e"⟩
        "1555" "http-img" "" (some "pid")).2 =
        [.credFetch, .messagePost (Json.obj [("messaging_product", .str "whatsapp"),
          ("to", .str "1555"), ("type", .str "image"), ("image", imageObj)])] ∧
      (hasKey imageObj "caption" = true ↔ "" ≠ "") ∧
      ("" ≠ "" → jLookup imageObj "caption" = .str "") :=
  (optional_fields_amended
    ⟨none, none, .fetchOk (.obj [("apiKey", .str "tok")]), .exc "e", .exc "e", .exc "e"⟩
    "1555" "pid" (.obj [("apiKey", .str "tok")]) (.str "tok") "1555"
    rfl rfl rfl).1 "http-img" "" (by decide)

/-- The exactly-one-of-result-and-error-non-null shape the spec asserts for
every returned Result. -/
def exactlyOne (r : WResult) : Prop :=
  (r.result = Json.null ∧ r.error ≠ Json.null) ∨
  (r.result ≠ Json.null ∧ r.error = Json.null)

/-- The error value a non-200 response is normalized to. -/
def extractedError (body : Json) (text : String) : Json :=
  match extractErrorValue body text with
  | .ok m => m
  | .error e => .str e.toMessage

/-- An HTTP outcome that keeps success and failure distinguishable: a 200 body
that is not JSON null, and a non-200 body whose extracted error value is not
null. Both degenerate shapes are reachable for a real upstream (body "null",
or error.message explicitly null), and each collapses both Result fields to
null. -/
def outcomeOk : HttpOutcome → Prop
  | .exc _ => True
  | .response status body text =>
      (status = 200 → body ≠ Json.null) ∧
      (status ≠ 200 → extractedError body text ≠ Json.null)

theorem exactlyOne_err (s : String) : exactlyOne ⟨.null, .str s⟩ :=
  .inl ⟨rfl, by simp⟩

theorem exactlyOne_exc (e : PyErr) : exactlyOne (excResult e) :=
  exactlyOne_err e.toMessage

theorem normalizeResponse_ne200 (status : Nat) (body : Json) (text : String)
    (h : status ≠ 200) :
    normalizeResponse (.response status body text) = ⟨.null, extractedError body text⟩ := by
  rcases he : extractErrorValue body text with e | m <;>
    simp [normalizeResponse, extractedError, he, h]

theorem exactlyOne_normalize (o : HttpOutcome) (h : outcomeOk o) :
    exactlyOne (normalizeResponse o) := by
  cases o with
  | exc m => exact exactlyOne_err m
  | response status body text =>
    by_cases hs : status = 200
    · subst hs
      exact .inr ⟨h.1 rfl, by simp [normalizeResponse]⟩
    · rw [normalizeResponse_ne200 status body text hs]
      exact .inl ⟨rfl, h.2 hs⟩

theorem truthy_ne_null (j : Json) (h : truthy j = true) : j ≠ Json.null := by
  intro he
  rw [he] at h
  simp [truthy] at h

theorem normalizeResponse_result_null (o : HttpOutcome)
    (h : truthy (normalizeResponse o).error = true) :
    (normalizeResponse o).result = Json.null := by
  cases o with
  | exc m => rfl
  | response status body text =>
    by_cases hs : status = 200
    · subst hs
      simp [normalizeResponse, truthy] at h
    · rw [normalizeResponse_ne200 status body text hs]

theorem findTemplate_some_obj (name : String) :
    ∀ ts t, findTemplate ts name = .ok (some t) → ∃ fs, t = Json.obj fs := by
  intro ts
  induction ts with
  | nil => intro t h; simp [findTemplate] at h
  | cons u rest ih =>
    intro t h
    rcases u with _ | s | n | fs | xs <;>
      simp [findTemplate, pyGet, bind, Except.bind, pure, Except.pure] at h
    rcases hl : (lookupField fs "name").getD Json.null with _ | s2 | n2 | fs2 | xs2 <;>
      rw [hl] at h <;>
      first
        | exact ih t h
        | (by_cases hse : s2 = name
           · simp [hse, pure, Except.pure] at h
             exact ⟨fs, h.symm⟩
           · simp [hse] at h
             exact ih t h)
theorem exOne_send_text (env : Env) (a b c d : String) (pid : Option String)
    (h : outcomeOk env.postOutcome) :
    exactlyOne (send_text_message env a b c d pid).1 := by
  unfold send_text_message
  rcases hr : resolvePhoneId env pid with e | pidv <;> simp only [hr]
  · exact exactlyOne_exc e
  · rcases hw : whatsAppClientInit env.cred pidv with ⟨ec | client, calls⟩ <;> simp only [hw]
    · exact exactlyOne_exc ec
    · rcases hv : validate_phone_number a with e2 | p <;> simp only [hv]
      · exact exactlyOne_exc e2
      · by_cases hm : b = "" <;> simp only [hm, WClient.send_request]
        · by_cases hn : c = "" <;> simp [hn, WClient.send_request]
          · exact exactlyOne_err _
          · exact exactlyOne_normalize _ h
        · simp [hm]
          exact exactlyOne_normalize _ h

theorem exOne_send_image (env : Env) (a b c : String) (pid : Option String)
    (h : outcomeOk env.postOutcome) :
    exactlyOne (send_image_message env a b c pid).1 := by
  unfold send_image_message
  rcases hr : resolvePhoneId env pid with e | pidv <;> simp only [hr]
  · exact exactlyOne_exc e
  · rcases hw : whatsAppClientInit env.cred pidv with ⟨ec | client, calls⟩ <;> simp only [hw]
    · exact exactlyOne_exc ec
    · rcases hv : validate_phone_number a with e2 | p <;> simp only [hv]
      · exact exactlyOne_exc e2
      · by_cases hu : b = "" <;> simp [hu, WClient.send_request]
        · exact exactlyOne_err _
        · exact exactlyOne_normalize _ h

theorem exOne_send_video (env : Env) (a b c : String) (pid : Option String)
    (h : outcomeOk env.postOutcome) :
    exactlyOne (send_video_message env a b c pid).1 := by
  unfold send_video_message
  rcases hr : resolvePhoneId env pid with e | pidv <;> simp only [hr]
  · exact exactlyOne_exc e
  · rcases hw : whatsAppClientInit env.cred pidv with ⟨ec | client, calls⟩ <;> simp only [hw]
    · exact exactlyOne_exc ec
    · rcases hv : validate_phone_number a with e2 | p <;> simp only [hv]
      · exact exactlyOne_exc e2
      · by_cases hu : b = "" <;> simp [hu, WClient.send_request]
        · exact exactlyOne_err _
        · exact exactlyOne_normalize _ h

theorem exOne_send_document (env : Env) (a b c d : String) (pid : Option String)
    (h : outcomeOk env.postOutcome) :
    exactlyOne (send_document_message env a b c d pid).1 := by
  unfold send_document_message
  rcases hr : resolvePhoneId env pid with e | pidv <;> simp only [hr]
  · exact exactlyOne_exc e
  · rcases hw : whatsAppClientInit env.cred pidv with ⟨ec | client, calls⟩ <;> simp only [hw]
    · exact exactlyOne_exc ec
    · rcases hv : validate_phone_number a with e2 | p <;> simp only [hv]
      · exact exactlyOne_exc e2
      · by_cases hu : b = "" <;> simp [hu, WClient.send_request]
        · exact exactlyOne_err _
        · exact exactlyOne_normalize _ h

theorem exOne_send_audio (env : Env) (a b : String) (pid : Option String)
    (h : outcomeOk env.postOutcome) :
    exactlyOne (send_audio_message env a b pid).1 := by
  unfold send_audio_message
  rcases hr : resolvePhoneId env pid with e | pidv <;> simp only [hr]
  · exact exactlyOne_exc e
  · rcases hw : whatsAppClientInit env.cred pidv with ⟨ec | client, calls⟩ <;> simp only [hw]
    · exact exactlyOne_exc ec
    · rcases hv : validate_phone_number a with e2 | p <;> simp only [hv]
      · exact exactlyOne_exc e2
      · by_cases hu : b = "" <;> simp [hu, WClient.send_request]
        · exact exactlyOne_err _
        · exact exactlyOne_normalize _ h

theorem exOne_send_list (env : Env) (pid a : String) (sections : List Json)
    (b c d e : String) (h : outcomeOk env.postOutcome) :
    exactlyOne (send_list_message env pid a sections b c d e).1 := by
  unfold send_list_message
  rcases hw : whatsAppClientInit env.cred pid with ⟨ec | client, calls⟩ <;> simp only [hw]
  · exact exactlyOne_exc ec
  · rcases hv : validate_phone_number a with e2 | p <;> simp only [hv]
    · exact exactlyOne_exc e2
    · by_cases hs : sections.isEmpty <;> simp [hs, WClient.send_request]
      · exact exactlyOne_err _
      · exact exactlyOne_normalize _ h

theorem exOne_send_button (env : Env) (pid a b : String) (buttons : List Json)
    (c d : String) (h : outcomeOk env.postOutcome) :
    exactlyOne (send_button_message env pid a b buttons c d).1 := by
  unfold send_button_message
  rcases hw : whatsAppClientInit env.cred pid with ⟨ec | client, calls⟩ <;> simp only [hw]
  · exact exactlyOne_exc ec
  · rcases hv : validate_phone_number a with e2 | p <;> simp only [hv]
    · exact exactlyOne_exc e2
    · by_cases hb : (buttons.isEmpty || decide (buttons.length > 3)) = true <;>
        simp [hb, WClient.send_request]
      · exact exactlyOne_err _
      · exact exactlyOne_normalize _ h

theorem exOne_send_template (env : Env) (a b : String) (params : List Json)
    (l : String) (pid : Option String) (h : outcomeOk env.postOutcome) :
    exactlyOne (send_template_message env a b params l pid).1 := by
  unfold send_template_message
  rcases hr : resolvePhoneId env pid with e | pidv <;> simp only [hr]
  · exact exactlyOne_exc e
  · rcases hw : whatsAppClientInit env.cred pidv with ⟨ec | client, calls⟩ <;> simp only [hw]
    · exact exactlyOne_exc ec
    · rcases hv : validate_phone_number a with e2 | p <;> simp only [hv]
      · exact exactlyOne_exc e2
      · exact exactlyOne_normalize _ h

theorem exOne_check_template_status (env : Env) (a : String) (baid : Option String)
    (_h : outcomeOk env.tmplGetOutcome) :
    exactlyOne (check_template_status env a baid).1 := by
  unfold check_template_status
  rcases hr : resolveBusinessId env baid with e | b <;> simp only [hr]
  · exact exactlyOne_exc e
  · rcases hw : templateClientInit env.cred b with ⟨ec | client, calls⟩ <;> simp only [hw]
    · exact exactlyOne_exc ec
    · simp only [WTemplateClient.get_templates]
      by_cases htr : truthy (normalizeResponse env.tmplGetOutcome).error = true
      · simp only [htr, if_true]
        exact .inl ⟨normalizeResponse_result_null _ htr, truthy_ne_null _ htr⟩
      · rw [Bool.not_eq_true] at htr
        simp only [htr, Bool.false_eq_true, if_false]
        rcases hg : pyGetD (normalizeResponse env.tmplGetOutcome).result "data" (.arr [])
          with e2 | data <;> simp only [hg]
        · exact exactlyOne_exc e2
        · rcases hi : pyIterElems data with e3 | ts <;> simp only [hi]
          · exact exactlyOne_exc e3
          · rcases hf : findTemplate ts a with e4 | tOpt
            · simp only [hf]
              exact exactlyOne_exc e4
            · rcases tOpt with _ | t
              · simp only [hf]
                exact exactlyOne_err _
              · simp only [hf]
                obtain ⟨fs, rfl⟩ := findTemplate_some_obj a ts t hf
                exact .inr ⟨by simp, rfl⟩

theorem exOne_list_templates (env : Env) (f : String) (baid : Option String)
    (_h : outcomeOk env.tmplGetOutcome) :
    exactlyOne (list_templates env f baid).1 := by
  unfold list_templates
  rcases hr : resolveBusinessId env baid with e | b <;> simp only [hr]
  · exact exactlyOne_exc e
  · rcases hw : templateClientInit env.cred b with ⟨ec | client, calls⟩ <;> simp only [hw]
    · exact exactlyOne_exc ec
    · simp only [WTemplateClient.get_templates]
      by_cases htr : truthy (normalizeResponse env.tmplGetOutcome).error = true
      · simp only [htr, if_true]
        exact .inl ⟨normalizeResponse_result_null _ htr, truthy_ne_null _ htr⟩
      · rw [Bool.not_eq_true] at htr
        simp only [htr, Bool.false_eq_true, if_false]
        rcases hg : pyGetD (normalizeResponse env.tmplGetOutcome).result "data" (.arr [])
          with e2 | data <;> simp only [hg]
        · exact exactlyOne_exc e2
        · rcases hfil : (if f ≠ "" then do
              let elems ← pyIterElems data
              let kept ← filterByStatus elems f
              return Json.arr kept
            else .ok data) with e3 | templates <;> simp only [hfil]
          · exact exactlyOne_exc e3
          · rcases hl : pyLen templates with e4 | n <;> simp only [hl]
            · exact exactlyOne_exc e4
            · exact .inr ⟨by simp, rfl⟩

theorem exOne_create_template (env : Env) (a l cat : String) (comps : List Json)
    (baid : Option String) (h : outcomeOk env.tmplPostOutcome) :
    exactlyOne (create_template env a l cat comps baid).1 := by
  unfold create_template
  rcases hr : resolveBusinessId env baid with e | b <;> simp only [hr]
  · exact exactlyOne_exc e
  · rcases hw : templateClientInit env.cred b with ⟨ec | client, calls⟩ <;> simp only [hw]
    · exact exactlyOne_exc ec
    · by_cases hcat : pyUpper cat ∈ valid_categories <;>
        simp [hcat, WTemplateClient.create_template]
      · exact exactlyOne_normalize _ h
      · exact exactlyOne_err _

/-- Claim C1 counterexample: an HTTP 200 response whose JSON body is null
makes send_text_message return a Result whose result AND error are both null,
so the returned Result does not have exactly one non-null field. -/
theorem result_error_exclusivity_counterexample :
    (send_text_message
      ⟨none, none, .fetchOk (.obj [("apiKey", .str "tok")]),
        .response 200 .null "null", .exc "e", .exc "e"⟩
      "1555" "hi" "" "en_US" (some "pid")).1 = ⟨.null, .null⟩ ∧
    ¬ exactlyOne ⟨.null, .null⟩ :=
  ⟨rfl, by simp [exactlyOne]⟩

/-- Claim C1 amended: every handler returns a Result with exactly one of
result and error non-null, provided the relevant HTTP outcome keeps success
and failure distinguishable (a 200 body that is not JSON null, a non-200
body whose extracted error value is not null); a 200 response with body null
collapses both fields to null. -/
theorem result_error_exclusivity (env : Env)
    (hpost : outcomeOk env.postOutcome) (hget : outcomeOk env.tmplGetOutcome)
    (htpost : outcomeOk env.tmplPostOutcome) :
    (∀ a b c d pid, exactlyOne (send_text_message env a b c d pid).1) ∧
    (∀ a b c pid, exactlyOne (send_image_message env a b c pid).1) ∧
    (∀ a b c pid, exactlyOne (send_video_message env a b c pid).1) ∧
    (∀ a b c d pid, exactlyOne (send_document_message env a b c d pid).1) ∧
    (∀ a b pid, exactlyOne (send_audio_message env a b pid).1) ∧
    (∀ pid a sections b c d e, exactlyOne (send_list_message env pid a sections b c d e).1) ∧
    (∀ pid a b buttons c d, exactlyOne (send_button_message env pid a b buttons c d).1) ∧
    (∀ a b params l pid, exactlyOne (send_template_message env a b params l pid).1) ∧
    (∀ a baid, exactlyOne (check_template_status env a baid).1) ∧
    (∀ f baid, exactlyOne (list_templates env f baid).1) ∧
    (∀ a l cat comps baid, exactlyOne (create_template env a l cat comps baid).1) :=
  ⟨fun a b c d pid => exOne_send_text env a b c d pid hpost,
   fun a b c pid => exOne_send_image env a b c pid hpost,
   fun a b c pid => exOne_send_video env a b c pid hpost,
   fun a b c d pid => exOne_send_document env a b c d pid hpost,
   fun a b pid => exOne_send_audio env a b pid hpost,
   fun pid a sections b c d e => exOne_send_list env pid a sections b c d e hpost,
   fun pid a b buttons c d => exOne_send_button env pid a b buttons c d hpost,
   fun a b params l pid => exOne_send_template env a b params l pid hpost,
   fun a baid => exOne_check_template_status env a baid hget,
   fun f baid => exOne_list_templates env f baid hget,
   fun a l cat comps baid => exOne_create_template env a l cat comps baid htpost⟩

/-- Concrete instance of result_error_exclusivity: a transport failure on the
message POST still yields exactly one non-null field. -/
theorem result_error_exclusivity_witness :
    exactlyOne ((send_text_message
      ⟨none, none, .fetchOk (.obj [("apiKey", .str "tok")]),
        .exc "boom", .exc "e", .exc "e"⟩
      "1555" "hi" "" "en_US" (some "pid")).1) :=
  (result_error_exclusivity
    ⟨none, none, .fetchOk (.obj [("apiKey", .str "tok")]),
      .exc "boom", .exc "e", .exc "e"⟩
    trivial trivial trivial).1 "1555" "hi" "" "en_US" (some "pid")

end WhatsAppMcp
